import Mathlib

/-!
Verification of the cameleon U3V control-library core.

The definitions below are shallow embeddings of the C++ sources under
`src/cameleon` (register_map.cpp, u3v.cpp, control_handle.cpp) together with
the headers `DeviceControl.h` / `ControlHandle.h`.  Machine integers are
modelled as `Nat` with explicit bounds where overflow matters; byte buffers
are `List Nat` with entries below 256; fallible C++ code (`throw`) is
modelled with `Except String`.
-/

namespace Cameleon

/-! ## Byte-level parse and dump (register_map.cpp) -/

/-- Embeds the numeric `dumpBytes` template of register_map.cpp:
`buf[i] = static_cast<uint8_t>(value >> (i * 8))` for `i < sizeof(T)`,
i.e. the little-endian byte sequence of `x` over `w` bytes. -/
def dumpBytes (w x : Nat) : List Nat :=
  (List.range w).map (fun i => x / 256 ^ i % 256)

/-- Embeds the numeric `ParseBytes` template function of register_map.cpp:
`result |= static_cast<T>(bytes[i]) << (8 * i)`, accumulating the bytes in
little-endian order with bitwise or. -/
def ParseBytes : List Nat → Nat
  | [] => 0
  | b :: rest => b ||| ParseBytes rest <<< 8

lemma lor_mul_two_pow_eq_add (n : Nat) :
    ∀ b y : Nat, b < 2 ^ n → b ||| 2 ^ n * y = b + 2 ^ n * y := by
  induction n with
  | zero =>
    intro b y hb
    have hb0 : b = 0 := by omega
    subst hb0
    simp
  | succ n ih =>
    intro b y hb
    have hmul : 2 ^ (n + 1) * y = 2 * (2 ^ n * y) := by ring
    have hymod : 2 ^ (n + 1) * y % 2 = 0 := by omega
    have hp : 2 ^ (n + 1) = 2 * 2 ^ n := by ring
    have hmod : (b ||| 2 ^ (n + 1) * y) % 2 = b % 2 := by
      rcases Nat.mod_two_eq_zero_or_one b with h | h
      · rcases Nat.mod_two_eq_zero_or_one (b ||| 2 ^ (n + 1) * y) with h2 | h2
        · omega
        · have := Nat.or_mod_two_eq_one.mp h2
          omega
      · have h2 : (b ||| 2 ^ (n + 1) * y) % 2 = 1 :=
          Nat.or_mod_two_eq_one.mpr (Or.inl h)
        omega
    have hdiv : (b ||| 2 ^ (n + 1) * y) / 2 = b / 2 + 2 ^ n * y := by
      have h1 : 2 ^ (n + 1) * y / 2 = 2 ^ n * y := by omega
      rw [Nat.or_div_two, h1]
      exact ih (b / 2) y (by omega)
    omega

lemma lor_shiftLeft_eight (b y : Nat) (hb : b < 256) :
    b ||| y <<< 8 = b + 256 * y := by
  have h256 : (2 : Nat) ^ 8 = 256 := by norm_num
  have h := lor_mul_two_pow_eq_add 8 b y (by omega)
  rw [Nat.shiftLeft_eq, Nat.mul_comm y (2 ^ 8)]
  omega

lemma dumpBytes_succ (w x : Nat) :
    dumpBytes (w + 1) x = x % 256 :: dumpBytes w (x / 256) := by
  have hfun : ∀ i, x / 256 ^ (i + 1) % 256 = x / 256 / 256 ^ i % 256 := by
    intro i
    rw [Nat.div_div_eq_div_mul, pow_succ']
  unfold dumpBytes
  rw [List.range_succ_eq_map, List.map_cons, List.map_map]
  congr 1
  · simp
  · refine List.map_congr_left (fun i _ => ?_)
    simpa [Function.comp, Nat.succ_eq_add_one] using hfun i

lemma ParseBytes_dumpBytes (w : Nat) :
    ∀ x : Nat, ParseBytes (dumpBytes w x) = x % 256 ^ w := by
  induction w with
  | zero => intro x; simp [dumpBytes, ParseBytes, Nat.mod_one]
  | succ w ih =>
    intro x
    rw [dumpBytes_succ]
    show x % 256 ||| ParseBytes (dumpBytes w (x / 256)) <<< 8 = x % 256 ^ (w + 1)
    rw [ih, lor_shiftLeft_eight _ _ (Nat.mod_lt _ (by norm_num)), pow_succ',
      Nat.mod_mul]

/-- C1: for every numeric register value `x` of an integral width of 8, 16, 32
or 64 bits (1, 2, 4 or 8 bytes), dumping `x` with `dumpBytes` and parsing the
resulting little-endian bytes back with `ParseBytes` yields `x` again. -/
theorem c1_parse_dump_roundtrip (w x : Nat)
    (_hw : w = 1 ∨ w = 2 ∨ w = 4 ∨ w = 8) (hx : x < 2 ^ (8 * w)) :
    ParseBytes (dumpBytes w x) = x := by
  have h256 : (256 : Nat) ^ w = 2 ^ (8 * w) := by
    rw [pow_mul]; norm_num
  rw [ParseBytes_dumpBytes, h256, Nat.mod_eq_of_lt hx]

/-- Witness for C1 at width 4 bytes and value `0x12345678`. -/
theorem c1_parse_dump_roundtrip_witness :
    ParseBytes (dumpBytes 4 0x12345678) = 0x12345678 :=
  c1_parse_dump_roundtrip 4 0x12345678 (Or.inr (Or.inr (Or.inl rfl)))
    (by norm_num)

/-! ## BusSpeed parsing (register_map.cpp) -/

/-- Embeds the `u3v::BusSpeed` enum of register_map.cpp. -/
inductive BusSpeed where
  | LowSpeed
  | FullSpeed
  | HighSpeed
  | SuperSpeed
  | SuperSpeedPlus
deriving DecidableEq

/-- Embeds `ParseBytes<uint32_t>::parse_bytes` of register_map.cpp:
`bytes[0] | (bytes[1] << 8) | (bytes[2] << 16) | (bytes[3] << 24)`. -/
def parse_bytes_u32 (b0 b1 b2 b3 : Nat) : Nat :=
  b0 ||| b1 <<< 8 ||| b2 <<< 16 ||| b3 <<< 24

/-- Embeds the `switch (raw)` of `ParseBytes<u3v::BusSpeed>::parse_bytes`
in register_map.cpp; the default case throws
`ControlError("invalid bus speed defined")`. -/
def busSpeedOfU32 (raw : Nat) : Except String BusSpeed :=
  if raw = 0b1 then .ok .LowSpeed
  else if raw = 0b10 then .ok .FullSpeed
  else if raw = 0b100 then .ok .HighSpeed
  else if raw = 0b1000 then .ok .SuperSpeed
  else if raw = 0b10000 then .ok .SuperSpeedPlus
  else .error "invalid bus speed defined"

/-- Embeds `ParseBytes<u3v::BusSpeed>::parse_bytes` of register_map.cpp:
parse the 4 bytes as a little-endian u32, then switch on the raw value. -/
def parse_bytes_BusSpeed (b0 b1 b2 b3 : Nat) : Except String BusSpeed :=
  busSpeedOfU32 (parse_bytes_u32 b0 b1 b2 b3)

/-- C2 counterexample: on a non-enumerated raw value the parser fails with the
message "invalid bus speed defined", which is not the message
"invalid bus speed" stated by the claim. -/
theorem c2_busspeed_message_counterexample :
    parse_bytes_BusSpeed 0 0 0 0 = .error "invalid bus speed defined" ∧
    (Except.error "invalid bus speed defined" : Except String BusSpeed) ≠
      .error "invalid bus speed" := by
  exact ⟨rfl, fun hEq => absurd (Except.error.inj hEq) (by decide)⟩

/-- C2 (amended): the BusSpeed parser maps the little-endian u32 values
1, 2, 4, 8, 16 to the five enum values (so it is surjective onto them), and
every other u32 value fails with the protocol error
"invalid bus speed defined". -/
theorem c2_busspeed_parsing (b0 b1 b2 b3 : Nat) :
    parse_bytes_BusSpeed 1 0 0 0 = .ok .LowSpeed ∧
    parse_bytes_BusSpeed 2 0 0 0 = .ok .FullSpeed ∧
    parse_bytes_BusSpeed 4 0 0 0 = .ok .HighSpeed ∧
    parse_bytes_BusSpeed 8 0 0 0 = .ok .SuperSpeed ∧
    parse_bytes_BusSpeed 16 0 0 0 = .ok .SuperSpeedPlus ∧
    (parse_bytes_u32 b0 b1 b2 b3 ∉ ([1, 2, 4, 8, 16] : List Nat) →
      parse_bytes_BusSpeed b0 b1 b2 b3 = .error "invalid bus speed defined") := by
  refine ⟨rfl, rfl, rfl, rfl, rfl, ?_⟩
  intro h
  simp only [List.mem_cons, List.not_mem_nil, or_false] at h
  push_neg at h
  obtain ⟨h1, h2, h4, h8, h16⟩ := h
  unfold parse_bytes_BusSpeed busSpeedOfU32
  rw [if_neg h1, if_neg h2, if_neg h4, if_neg h8, if_neg h16]

/-- Witness for C2 at the raw value 3, which is rejected. -/
theorem c2_busspeed_parsing_witness :
    parse_bytes_BusSpeed 3 0 0 0 = .error "invalid bus speed defined" :=
  (c2_busspeed_parsing 3 0 0 0).2.2.2.2.2 (by decide)

/-! ## Camera enumeration (u3v.cpp) -/

/-- Embeds the device identity record consumed by `enumerateCameras`
(u3v.cpp uses `dev.vendorName`, `dev.modelName`, `dev.serialNumber`). -/
structure DeviceInfo where
  vendorName : String
  modelName : String
  serialNumber : String
deriving DecidableEq

/-- Embeds the `CameraInfo` aggregate built by `enumerateCameras`. -/
structure CameraInfo where
  vendorName : String
  modelName : String
  serialNumber : String
deriving DecidableEq

/-- Embeds one element of the camera vector returned by `enumerateCameras`:
the device whose control and stream handles were constructed, bundled with
its `CameraInfo`. -/
structure Camera where
  device : DeviceInfo
  info : CameraInfo
deriving DecidableEq

/-- Camera record built by `cameras.emplace_back(ctrl, strm, nullptr,
camera_info)` for a device that passed both validity checks. -/
def mkCamera (dev : DeviceInfo) : Camera :=
  { device := dev
    info := { vendorName := dev.vendorName, modelName := dev.modelName
              serialNumber := dev.serialNumber } }

/-- Embeds `u3v::enumerateCameras` of u3v.cpp.  The bodies of
`ControlHandle::isValid` and `StreamHandle::isValid` are not among the
provided sources, so validity is a parameter; the loop skips (with
`continue`, producing no error) any device whose control handle or stream
handle is invalid. -/
def enumerateCameras (ctrlValid strmValid : DeviceInfo → Bool) :
    List DeviceInfo → List Camera
  | [] => []
  | dev :: rest =>
    if !ctrlValid dev then enumerateCameras ctrlValid strmValid rest
    else if !strmValid dev then enumerateCameras ctrlValid strmValid rest
    else mkCamera dev :: enumerateCameras ctrlValid strmValid rest

/-- C3: camera enumeration returns exactly the devices whose control and
stream handles validate, in enumeration order; invalid devices are skipped
without an error, and an empty device sequence yields an empty camera
sequence (the embedding is a total function, so no error is possible). -/
theorem c3_enumerate_cameras (ctrlValid strmValid : DeviceInfo → Bool) :
    (∀ devices, enumerateCameras ctrlValid strmValid devices =
      (devices.filter (fun d => ctrlValid d && strmValid d)).map mkCamera) ∧
    enumerateCameras ctrlValid strmValid [] = [] := by
  refine ⟨?_, rfl⟩
  intro devices
  induction devices with
  | nil => rfl
  | cons dev rest ih =>
    by_cases h1 : ctrlValid dev
    · by_cases h2 : strmValid dev
      · simp [enumerateCameras, List.filter_cons, h1, h2, ih]
      · simp [enumerateCameras, List.filter_cons, h1, h2, ih]
    · simp [enumerateCameras, List.filter_cons, h1, ih]

/-! ## Error conversion (u3v.cpp) -/

/-- Embeds `u3v::ErrorType`, the discriminant of `u3v::Error` switched on by
`convertToControlError`. -/
inductive ErrorType where
  | LibUsb
  | BufferIo
  | InvalidPacket
  | InvalidDevice
deriving DecidableEq

/-- Embeds the `ControlError` kinds that `convertToControlError` can build,
plus the `InvalidPacket` kind named by the specification. -/
inductive ControlErrorType where
  | Io
  | InvalidDevice
  | InvalidPacket
deriving DecidableEq

/-- Embeds `u3v::Error`: an error type together with its `what()` message. -/
structure Error where
  type : ErrorType
  what : String
deriving DecidableEq

/-- Embeds the `ControlError(kind, message)` values built by
`convertToControlError`. -/
structure ControlError where
  kind : ControlErrorType
  msg : String
deriving DecidableEq

/-- Embeds `u3v::convertToControlError` of u3v.cpp.  The `LibUsb` case holds
an empty inner `switch` and falls through into the
`case BufferIo: case InvalidPacket:` labels, which return
`ControlError(ControlErrorType::Io, err.what())`; `InvalidDevice` returns
`ControlError(ControlErrorType::InvalidDevice, "invalid device")`. -/
def convertToControlError (err : Error) : ControlError :=
  match err.type with
  | .LibUsb => { kind := .Io, msg := err.what }
  | .BufferIo => { kind := .Io, msg := err.what }
  | .InvalidPacket => { kind := .Io, msg := err.what }
  | .InvalidDevice => { kind := .InvalidDevice, msg := "invalid device" }

/-- C4 counterexample: an `InvalidPacket` error is converted to the `Io`
kind, not to the `InvalidPacket` kind the claim requires. -/
theorem c4_invalid_packet_counterexample :
    (convertToControlError
        { type := .InvalidPacket, what := "prefix mismatch" }).kind
      = .Io ∧
    ControlErrorType.Io ≠ ControlErrorType.InvalidPacket := by
  exact ⟨rfl, by decide⟩

/-- C4 (amended): the conversion maps transport failures (`LibUsb`,
`BufferIo`) to the `Io` kind, maps `InvalidPacket` also to the `Io` kind
(not to `InvalidPacket`), and maps `InvalidDevice` to the `InvalidDevice`
kind with message "invalid device". -/
theorem c4_convert_to_control_error (err : Error) :
    (err.type = .LibUsb ∨ err.type = .BufferIo →
      (convertToControlError err).kind = .Io) ∧
    (err.type = .InvalidPacket → (convertToControlError err).kind = .Io) ∧
    (err.type = .InvalidDevice →
      convertToControlError err =
        { kind := .InvalidDevice, msg := "invalid device" }) := by
  obtain ⟨t, w⟩ := err
  refine ⟨?_, ?_, ?_⟩ <;> intro h <;> cases t <;>
    simp_all [convertToControlError]

/-- Witness for C4 at a concrete `BufferIo` error. -/
theorem c4_convert_to_control_error_witness :
    (convertToControlError { type := .BufferIo, what := "usb io" }).kind
      = .Io :=
  (c4_convert_to_control_error { type := .BufferIo, what := "usb io" }).1
    (Or.inr rfl)

/-! ## Connection configuration (control_handle.cpp, ControlHandle.h) -/

/-- Embeds `INITIAL_TIMEOUT_DURATION` of ControlHandle.h: 500 milliseconds. -/
def INITIAL_TIMEOUT_DURATION : Nat := 500

/-- Embeds `INITIAL_MAXIMUM_CMD_LENGTH` of ControlHandle.h: 128 bytes. -/
def INITIAL_MAXIMUM_CMD_LENGTH : Nat := 128

/-- Embeds `INITIAL_MAXIMUM_ACK_LENGTH` of ControlHandle.h: 128 bytes. -/
def INITIAL_MAXIMUM_ACK_LENGTH : Nat := 128

/-- Embeds the `ConnectionConfig` class of control_handle.cpp (durations in
milliseconds). -/
structure ConnectionConfig where
  timeout_duration : Nat
  retry_count : Nat
  maximum_cmd_length : Nat
  maximum_ack_length : Nat
deriving DecidableEq

/-- Embeds the `ConnectionConfig()` default constructor of
control_handle.cpp. -/
def ConnectionConfig.init : ConnectionConfig :=
  { timeout_duration := INITIAL_TIMEOUT_DURATION
    retry_count := 3
    maximum_cmd_length := INITIAL_MAXIMUM_CMD_LENGTH
    maximum_ack_length := INITIAL_MAXIMUM_ACK_LENGTH }

/-- C8: a freshly constructed `ConnectionConfig` carries the initial 500 ms
timeout, retry count 3, and 128-byte maximum command and acknowledge
lengths. -/
theorem c8_connection_config_defaults :
    ConnectionConfig.init.timeout_duration = 500 ∧
    ConnectionConfig.init.retry_count = 3 ∧
    ConnectionConfig.init.maximum_cmd_length = 128 ∧
    ConnectionConfig.init.maximum_ack_length = 128 :=
  ⟨rfl, rfl, rfl, rfl⟩

/-! ## Stream parameters (control_handle.cpp, second part) -/

/-- Embeds the handle state machine of the specification and
`ControlHandle`: CREATED, OPENED, CLOSED. -/
inductive HandleState where
  | CREATED
  | OPENED
  | CLOSED
deriving DecidableEq

/-- Embeds the SIRM register accessors used by
`StreamParams::from_control`. -/
structure SirmRegs where
  maximum_leader_size : Nat
  maximum_trailer_size : Nat
  payload_transfer_size : Nat
  payload_transfer_count : Nat
  payload_final_transfer1_size : Nat
  payload_final_transfer2_size : Nat
deriving DecidableEq

/-- Embeds the control-side state visible to `StreamParams::from_control`:
the handle state, the SIRM resolved through ABRM → SBRM (`none` models the
SBRM SIRM pointer reading as zero, i.e. `!sirm`), and ABRM's maximum device
response time. -/
structure ControlState where
  state : HandleState
  sirm : Option SirmRegs
  maximum_device_response_time : Nat
deriving DecidableEq

/-- Embeds the `StreamParams` struct of control_handle.cpp. -/
structure StreamParams where
  leader_size : Nat
  trailer_size : Nat
  payload_size : Nat
  payload_count : Nat
  payload_final1_size : Nat
  payload_final2_size : Nat
  timeout : Nat
deriving DecidableEq

/-- Embeds `StreamParams::from_control` of control_handle.cpp: resolve
ABRM → SBRM → SIRM; if the SIRM is absent, throw
`ControlError("the U3V device doesn't have `SIRM`")` (the throw leaves the
control state untouched, which the embedding makes explicit by returning the
state alongside the result); otherwise populate the stream parameters from
the SIRM registers. -/
def StreamParams.from_control (ctrl : ControlState) :
    Except String StreamParams × ControlState :=
  match ctrl.sirm with
  | none => (.error "the U3V device doesn\x27t have `SIRM`", ctrl)
  | some sirm =>
    (.ok { leader_size := sirm.maximum_leader_size
           trailer_size := sirm.maximum_trailer_size
           payload_size := sirm.payload_transfer_size
           payload_count := sirm.payload_transfer_count
           payload_final1_size := sirm.payload_final_transfer1_size
           payload_final2_size := sirm.payload_final_transfer2_size
           timeout := ctrl.maximum_device_response_time }, ctrl)

/-- An opened control state whose SBRM SIRM pointer reads as zero. -/
def sirmAbsentCtrl : ControlState :=
  { state := .OPENED, sirm := none, maximum_device_response_time := 500 }

/-- C5 counterexample: with the SIRM absent, the stream-parameter
construction fails with the ControlError message
"the U3V device doesn't have `SIRM`", which is not the UnsupportedOperation
error the claim names (no such error kind exists in the code). -/
theorem c5_sirm_absent_counterexample :
    StreamParams.from_control sirmAbsentCtrl =
      (.error "the U3V device doesn\x27t have `SIRM`", sirmAbsentCtrl) ∧
    ("the U3V device doesn\x27t have `SIRM`" : String) ≠
      "UnsupportedOperation" := by
  exact ⟨rfl, by decide⟩

/-- C5 (amended): for every opened handle whose SBRM reports a SIRM address
of zero, the stream-parameter construction that resolves SBRM → SIRM fails
with the ControlError "the U3V device doesn't have `SIRM`", and the handle
state is unchanged, hence still OPENED. -/
theorem c5_sirm_absent (ctrl : ControlState)
    (hs : ctrl.sirm = none) (ho : ctrl.state = .OPENED) :
    (StreamParams.from_control ctrl).1 =
      .error "the U3V device doesn\x27t have `SIRM`" ∧
    (StreamParams.from_control ctrl).2 = ctrl ∧
    (StreamParams.from_control ctrl).2.state = .OPENED := by
  unfold StreamParams.from_control
  rw [hs]
  exact ⟨rfl, rfl, ho⟩

/-- Witness for C5 at a concrete opened, SIRM-less control state. -/
theorem c5_sirm_absent_witness :
    (StreamParams.from_control sirmAbsentCtrl).1 =
      .error "the U3V device doesn\x27t have `SIRM`" ∧
    (StreamParams.from_control sirmAbsentCtrl).2 = sirmAbsentCtrl ∧
    (StreamParams.from_control sirmAbsentCtrl).2.state = .OPENED :=
  c5_sirm_absent sirmAbsentCtrl rfl rfl

/-! ## String register dump and decode (register_map.cpp) -/

/-- Embeds `dumpBytes(const std::string&, uint8_t*, size_t)` of
register_map.cpp: if the string is longer than the buffer, throw
`std::runtime_error("too large string")` and write nothing; otherwise
`memcpy` the string bytes to the front of the buffer and, when the string is
strictly shorter than the buffer, zero-terminate it at index `str.size()`
(the remaining buffer bytes are left unchanged). -/
def dumpString (s buf : List Nat) : Except String (List Nat) :=
  if buf.length < s.length then .error "too large string"
  else
    let copied := s ++ buf.drop s.length
    if s.length < buf.length then .ok (copied.set s.length 0)
    else .ok copied

/-- Modelled from the spec: string register decoding — "Strings are
fixed-width, zero-terminated within the slot; decoding stops at the first
zero byte."  The typed string read accessor is not among the provided
source files. -/
def parseString (slot : List Nat) : List Nat :=
  slot.takeWhile (fun b => b != 0)

lemma parseString_no_zero (s : List Nat) (h : 0 ∉ s) : parseString s = s := by
  induction s with
  | nil => rfl
  | cons b rest ih =>
    have hb0 : b ≠ 0 := by
      intro hb0
      exact h (hb0 ▸ List.mem_cons_self b rest)
    have hb : (b != 0) = true := by simpa using hb0
    have hrest : 0 ∉ rest := fun hm => h (List.mem_cons_of_mem b hm)
    unfold parseString at ih ⊢
    rw [List.takeWhile_cons, hb, if_pos rfl, ih hrest]

lemma parseString_append_zero (s rest : List Nat) (h : 0 ∉ s) :
    parseString (s ++ 0 :: rest) = s := by
  induction s with
  | nil => rfl
  | cons b bs ih =>
    have hb0 : b ≠ 0 := by
      intro hb0
      exact h (hb0 ▸ List.mem_cons_self b bs)
    have hb : (b != 0) = true := by simpa using hb0
    have hbs : 0 ∉ bs := fun hm => h (List.mem_cons_of_mem b hm)
    unfold parseString at ih ⊢
    rw [List.cons_append, List.takeWhile_cons, hb, if_pos rfl, ih hbs]

/-- C7 counterexample: the string consisting of the single byte 0 fits a
2-byte slot, yet decoding the dumped slot stops at its first byte and yields
the empty string, so decoding does not recover every fitting string. -/
theorem c7_string_dump_counterexample :
    dumpString [0] [7, 7] = .ok [0, 0] ∧
    parseString [0, 0] = [] ∧ ([] : List Nat) ≠ [0] := by
  exact ⟨rfl, rfl, by decide⟩

/-- C7 (amended): dumping a string `s` into a fixed-width slot `buf` fails
with "too large string" and writes nothing when `s` is longer than the slot;
when `s` is strictly shorter, the slot receives the bytes of `s` followed by
a zero byte; when the lengths are equal the slot is exactly `s`; and in both
fitting cases, provided `s` contains no zero byte, decoding (which stops at
the first zero byte) recovers `s`. -/
theorem c7_string_dump (s buf : List Nat) :
    (buf.length < s.length → dumpString s buf = .error "too large string") ∧
    (s.length < buf.length →
      ∃ rest, dumpString s buf = .ok (s ++ 0 :: rest) ∧
        (s ++ 0 :: rest).length = buf.length ∧
        (0 ∉ s → parseString (s ++ 0 :: rest) = s)) ∧
    (s.length = buf.length →
      dumpString s buf = .ok s ∧ (0 ∉ s → parseString s = s)) := by
  refine ⟨?_, ?_, ?_⟩
  · intro h
    unfold dumpString
    rw [if_pos h]
  · intro h
    have hle : ¬ buf.length < s.length := by omega
    have hdrop : (buf.drop s.length).length = buf.length - s.length := by
      simp
    have hne : buf.drop s.length ≠ [] := by
      intro hnil
      rw [hnil] at hdrop
      simp at hdrop
      omega
    obtain ⟨d, tl, hd⟩ := List.exists_cons_of_ne_nil hne
    refine ⟨tl, ?_, ?_, fun h0 => parseString_append_zero s tl h0⟩
    · unfold dumpString
      rw [if_neg hle, if_pos h]
      simp only [Except.ok.injEq]
      rw [List.set_append_right _ _ (Nat.le_refl s.length)]
      rw [Nat.sub_self, hd]
      rfl
    · have : (buf.drop s.length).length = tl.length + 1 := by
        rw [hd]; simp
      simp only [List.length_append, List.length_cons]
      omega
  · intro h
    have hle : ¬ buf.length < s.length := by omega
    have hlt : ¬ s.length < buf.length := by omega
    constructor
    · unfold dumpString
      rw [if_neg hle, if_neg hlt]
      simp only [Except.ok.injEq]
      rw [h, List.drop_length, List.append_nil]
    · exact fun h0 => parseString_no_zero s h0

/-- Witness for C7: an oversized dump fails, and an exact-width dump of a
zero-free string round-trips. -/
theorem c7_string_dump_witness :
    dumpString [1, 2, 3] [9, 9] = .error "too large string" ∧
    dumpString [1, 2] [9, 9] = .ok [1, 2] ∧
    parseString [1, 2] = [1, 2] :=
  ⟨(c7_string_dump [1, 2, 3] [9, 9]).1 (by decide),
   ((c7_string_dump [1, 2] [9, 9]).2.2 (by decide)).1,
   ((c7_string_dump [1, 2] [9, 9]).2.2 (by decide)).2 (by decide)⟩

/-! ## Payload reads (control_handle.cpp, second part) -/

/-- Embeds `StreamParams::maximum_payload_size` of control_handle.cpp:
`payload_size * payload_count + payload_final1_size + payload_final2_size`. -/
def StreamParams.maximum_payload_size (p : StreamParams) : Nat :=
  p.payload_size * p.payload_count + p.payload_final1_size +
    p.payload_final2_size

/-- The sequence of `async_pool.submit(buf.data() + cursor, len)` regions
issued by `read_payload` of control_handle.cpp, as `(offset, length)` pairs:
`payload_count` regions of `payload_size` bytes at cursor positions
`0, payload_size, 2 * payload_size, …`, then the final-1 region if its size
is nonzero, then the final-2 region if its size is nonzero. -/
def payloadSubmits (p : StreamParams) : List (Nat × Nat) :=
  let base :=
    (List.range p.payload_count).map (fun i => (p.payload_size * i, p.payload_size))
  let cursor1 := p.payload_size * p.payload_count
  let withFinal1 :=
    if p.payload_final1_size ≠ 0 then base ++ [(cursor1, p.payload_final1_size)]
    else base
  let cursor2 :=
    if p.payload_final1_size ≠ 0 then cursor1 + p.payload_final1_size
    else cursor1
  if p.payload_final2_size ≠ 0 then withFinal1 ++ [(cursor2, p.payload_final2_size)]
  else withFinal1

/-- Embeds `read_payload` of control_handle.cpp: if the buffer is smaller
than the total payload size, throw
`std::runtime_error("Buffer is too small to read the payload")`; otherwise
submit the payload regions. -/
def read_payload (p : StreamParams) (bufSize : Nat) :
    Except String (List (Nat × Nat)) :=
  if bufSize < p.payload_size * p.payload_count + p.payload_final1_size +
      p.payload_final2_size then
    .error "Buffer is too small to read the payload"
  else .ok (payloadSubmits p)

/-- Regions `(offset, length)` are contiguous (hence pairwise disjoint)
starting at cursor `c`: each region starts where the previous one ended. -/
def ContigFrom : Nat → List (Nat × Nat) → Prop
  | _, [] => True
  | c, r :: rest => r.1 = c ∧ ContigFrom (c + r.2) rest

/-- Total length of a list of `(offset, length)` regions. -/
def sumLens (l : List (Nat × Nat)) : Nat := (l.map (fun r => r.2)).sum

lemma sumLens_append (l₁ l₂ : List (Nat × Nat)) :
    sumLens (l₁ ++ l₂) = sumLens l₁ + sumLens l₂ := by
  simp [sumLens]

lemma sumLens_singleton (a l : Nat) : sumLens [(a, l)] = l := by
  simp [sumLens]

lemma contigFrom_cons (c : Nat) (r : Nat × Nat) (rest : List (Nat × Nat)) :
    ContigFrom c (r :: rest) ↔ r.1 = c ∧ ContigFrom (c + r.2) rest :=
  Iff.rfl

lemma contigFrom_singleton (c a l : Nat) : ContigFrom c [(a, l)] ↔ a = c :=
  ⟨fun h => h.1, fun h => ⟨h, trivial⟩⟩

lemma contigFrom_append (c : Nat) (l₁ l₂ : List (Nat × Nat)) :
    ContigFrom c (l₁ ++ l₂) ↔
      ContigFrom c l₁ ∧ ContigFrom (c + sumLens l₁) l₂ := by
  induction l₁ generalizing c with
  | nil =>
    simp only [List.nil_append, sumLens, List.map_nil, List.sum_nil,
      Nat.add_zero]
    exact ⟨fun h => ⟨trivial, h⟩, fun h => h.2⟩
  | cons r l₁ ih =>
    rw [List.cons_append, contigFrom_cons, contigFrom_cons, ih (c + r.2)]
    have hs : sumLens (r :: l₁) = r.2 + sumLens l₁ := by simp [sumLens]
    rw [hs]
    constructor
    · rintro ⟨h1, h2, h3⟩
      refine ⟨⟨h1, h2⟩, ?_⟩
      rw [← Nat.add_assoc]
      exact h3
    · rintro ⟨⟨h1, h2⟩, h3⟩
      refine ⟨h1, h2, ?_⟩
      rw [Nat.add_assoc]
      exact h3

lemma sumLens_base (s k : Nat) :
    sumLens ((List.range k).map (fun i => (s * i, s))) = s * k := by
  simp [sumLens, List.map_map, Function.comp]
  induction k with
  | zero => simp
  | succ k ih =>
    rw [List.range_succ]
    simp [ih, Nat.mul_succ]

lemma contigFrom_base (s k : Nat) :
    ContigFrom 0 ((List.range k).map (fun i => (s * i, s))) := by
  induction k with
  | zero =>
    simp only [List.range_zero, List.map_nil]
    exact trivial
  | succ k ih =>
    rw [List.range_succ, List.map_append, contigFrom_append, sumLens_base]
    refine ⟨ih, ?_⟩
    simp only [List.map_cons, List.map_nil]
    rw [contigFrom_singleton]
    omega

lemma contigFrom_mem_bound (c : Nat) (l : List (Nat × Nat)) :
    ContigFrom c l → ∀ r ∈ l, r.1 + r.2 ≤ c + sumLens l := by
  induction l generalizing c with
  | nil => intro _ r hr; cases hr
  | cons r₀ rest ih =>
    intro h r hr
    obtain ⟨h1, h2⟩ := h
    rcases List.mem_cons.mp hr with hEq | hmem
    · subst hEq
      simp only [sumLens, List.map_cons, List.sum_cons]
      omega
    · have := ih (c + r₀.2) h2 r hmem
      simp only [sumLens, List.map_cons, List.sum_cons] at this ⊢
      omega

lemma payloadSubmits_contig (p : StreamParams) :
    ContigFrom 0 (payloadSubmits p) := by
  have hbase := contigFrom_base p.payload_size p.payload_count
  unfold payloadSubmits
  by_cases h1 : p.payload_final1_size ≠ 0
  · by_cases h2 : p.payload_final2_size ≠ 0
    · simp only [if_pos h1, if_pos h2]
      rw [contigFrom_append, contigFrom_append, sumLens_append, sumLens_base,
        sumLens_singleton, contigFrom_singleton, contigFrom_singleton]
      exact ⟨⟨hbase, by omega⟩, by omega⟩
    · simp only [if_pos h1, if_neg h2]
      rw [contigFrom_append, sumLens_base, contigFrom_singleton]
      exact ⟨hbase, by omega⟩
  · by_cases h2 : p.payload_final2_size ≠ 0
    · simp only [if_neg h1, if_pos h2]
      rw [contigFrom_append, sumLens_base, contigFrom_singleton]
      exact ⟨hbase, by omega⟩
    · simp only [if_neg h1, if_neg h2]
      exact hbase

lemma payloadSubmits_sumLens (p : StreamParams) :
    sumLens (payloadSubmits p) = p.maximum_payload_size := by
  unfold payloadSubmits StreamParams.maximum_payload_size
  by_cases h1 : p.payload_final1_size ≠ 0
  · by_cases h2 : p.payload_final2_size ≠ 0
    · simp only [if_pos h1, if_pos h2]
      rw [sumLens_append, sumLens_append, sumLens_base, sumLens_singleton,
        sumLens_singleton]
    · have h2z : p.payload_final2_size = 0 := not_not.mp h2
      simp only [if_pos h1, if_neg h2]
      rw [sumLens_append, sumLens_base, sumLens_singleton]
      omega
  · have h1z : p.payload_final1_size = 0 := not_not.mp h1
    by_cases h2 : p.payload_final2_size ≠ 0
    · simp only [if_neg h1, if_pos h2]
      rw [sumLens_append, sumLens_base, sumLens_singleton]
      omega
    · have h2z : p.payload_final2_size = 0 := not_not.mp h2
      simp only [if_neg h1, if_neg h2]
      rw [sumLens_base]
      omega

/-- C10: read_payload fails with "Buffer is too small to read the payload"
exactly when the buffer is smaller than
`payload_size * payload_count + payload_final1_size + payload_final2_size`;
otherwise it submits regions that are contiguous (hence disjoint) from
offset 0, whose lengths sum to `maximum_payload_size()`, and each of which
lies entirely within the buffer. -/
theorem c10_read_payload (p : StreamParams) (bufSize : Nat) :
    (read_payload p bufSize = .error "Buffer is too small to read the payload" ↔
      bufSize < p.maximum_payload_size) ∧
    (p.maximum_payload_size ≤ bufSize →
      read_payload p bufSize = .ok (payloadSubmits p) ∧
      ContigFrom 0 (payloadSubmits p) ∧
      sumLens (payloadSubmits p) = p.maximum_payload_size ∧
      ∀ r ∈ payloadSubmits p, r.1 + r.2 ≤ bufSize) := by
  constructor
  · unfold read_payload StreamParams.maximum_payload_size
    by_cases hlt : bufSize < p.payload_size * p.payload_count +
        p.payload_final1_size + p.payload_final2_size
    · simp [hlt]
    · simp [hlt]
  · intro hge
    have hlt : ¬ bufSize < p.payload_size * p.payload_count +
        p.payload_final1_size + p.payload_final2_size := by
      unfold StreamParams.maximum_payload_size at hge
      omega
    refine ⟨by unfold read_payload; rw [if_neg hlt], payloadSubmits_contig p,
      payloadSubmits_sumLens p, ?_⟩
    intro r hr
    have hb := contigFrom_mem_bound 0 (payloadSubmits p)
      (payloadSubmits_contig p) r hr
    rw [Nat.zero_add, payloadSubmits_sumLens] at hb
    omega

/-- Concrete stream parameters for the C10 witness: three 4-byte payload
transfers plus final transfers of 2 and 1 bytes. -/
def sampleStreamParams : StreamParams :=
  { leader_size := 52, trailer_size := 16, payload_size := 4
    payload_count := 3, payload_final1_size := 2, payload_final2_size := 1
    timeout := 500 }

/-- Witness for C10 at the sample parameters and a 20-byte buffer. -/
theorem c10_read_payload_witness :
    read_payload sampleStreamParams 20 = .ok (payloadSubmits sampleStreamParams) ∧
    ContigFrom 0 (payloadSubmits sampleStreamParams) ∧
    sumLens (payloadSubmits sampleStreamParams) =
      sampleStreamParams.maximum_payload_size :=
  ⟨((c10_read_payload sampleStreamParams 20).2 (by decide)).1,
   ((c10_read_payload sampleStreamParams 20).2 (by decide)).2.1,
   ((c10_read_payload sampleStreamParams 20).2 (by decide)).2.2.1⟩

/-! ## SharedControlHandle delegation (control_handle.cpp, DeviceControl.h) -/

/-- Embeds the `DeviceControl` interface of DeviceControl.h as a record of
operation semantics over an abstract inner-handle state `σ` (the
`ControlHandle` implementation lives behind `ControlHandleImpl*` and is not
among the provided sources).  Query operations return a value; mutating
operations also return the successor state. -/
structure DCImpl (σ : Type) where
  buffer_capacity : σ → Nat
  resize_buffer : σ → Nat → σ
  timeout_duration : σ → Nat
  set_timeout_duration : σ → Nat → σ
  retry_count : σ → Nat
  set_retry_count : σ → Nat → σ
  device_info : σ → DeviceInfo
  is_opened : σ → Bool
  openDevice : σ → Bool × σ
  closeDevice : σ → Bool × σ
  readMem : σ → Nat → List Nat → (Bool × List Nat) × σ
  writeMem : σ → Nat → List Nat → Bool × σ
  genapi : σ → String × σ
  enable_streaming : σ → Bool × σ
  disable_streaming : σ → Bool × σ

/-- One invocation of the `DeviceControl` interface, with its arguments. -/
inductive DCOp where
  | bufferCapacity
  | resizeBuffer (size : Nat)
  | timeoutDuration
  | setTimeoutDuration (duration : Nat)
  | retryCount
  | setRetryCount (count : Nat)
  | deviceInfo
  | isOpened
  | openOp
  | closeOp
  | readOp (address : Nat) (buf : List Nat)
  | writeOp (address : Nat) (data : List Nat)
  | genapiOp
  | enableStreaming
  | disableStreaming

/-- Result of one `DeviceControl` invocation. -/
inductive DCResult where
  | unitRes
  | natRes (n : Nat)
  | boolRes (b : Bool)
  | infoRes (d : DeviceInfo)
  | bytesRes (ok : Bool) (bytes : List Nat)
  | strRes (s : String)

/-- Semantics of invoking an operation directly on the wrapped
`ControlHandle`. -/
def runControl (impl : DCImpl σ) : DCOp → σ → DCResult × σ
  | .bufferCapacity, s => (.natRes (impl.buffer_capacity s), s)
  | .resizeBuffer n, s => (.unitRes, impl.resize_buffer s n)
  | .timeoutDuration, s => (.natRes (impl.timeout_duration s), s)
  | .setTimeoutDuration d, s => (.unitRes, impl.set_timeout_duration s d)
  | .retryCount, s => (.natRes (impl.retry_count s), s)
  | .setRetryCount n, s => (.unitRes, impl.set_retry_count s n)
  | .deviceInfo, s => (.infoRes (impl.device_info s), s)
  | .isOpened, s => (.boolRes (impl.is_opened s), s)
  | .openOp, s => (.boolRes (impl.openDevice s).1, (impl.openDevice s).2)
  | .closeOp, s => (.boolRes (impl.closeDevice s).1, (impl.closeDevice s).2)
  | .readOp a b, s =>
    (.bytesRes (impl.readMem s a b).1.1 (impl.readMem s a b).1.2,
      (impl.readMem s a b).2)
  | .writeOp a d, s => (.boolRes (impl.writeMem s a d).1, (impl.writeMem s a d).2)
  | .genapiOp, s => (.strRes (impl.genapi s).1, (impl.genapi s).2)
  | .enableStreaming, s =>
    (.boolRes (impl.enable_streaming s).1, (impl.enable_streaming s).2)
  | .disableStreaming, s =>
    (.boolRes (impl.disable_streaming s).1, (impl.disable_streaming s).2)

/-- Embeds the `SharedControlHandle` state of control_handle.cpp: the wrapped
handle (`m_handle`) and its mutex, modelled in a single-threaded execution as
a held/free flag. -/
structure SharedState (σ : Type) where
  m_handle : σ
  m_mutex : Bool

/-- Acquisition of `m_mutex` by `std::lock_guard` at method entry. -/
def lockMutex (st : SharedState σ) : SharedState σ := { st with m_mutex := true }

/-- Release of `m_mutex` when the `std::lock_guard` is destroyed. -/
def unlockMutex (st : SharedState σ) : SharedState σ :=
  { st with m_mutex := false }

/-- Embeds the `SharedControlHandle` methods of control_handle.cpp: each
method takes the lock, invokes the same method on `m_handle`, and releases
the lock. -/
def runShared (impl : DCImpl σ) : DCOp → SharedState σ → DCResult × SharedState σ
  | .bufferCapacity, st =>
    let st₁ := lockMutex st
    (.natRes (impl.buffer_capacity st₁.m_handle), unlockMutex st₁)
  | .resizeBuffer n, st =>
    let st₁ := lockMutex st
    (.unitRes, unlockMutex { st₁ with m_handle := impl.resize_buffer st₁.m_handle n })
  | .timeoutDuration, st =>
    let st₁ := lockMutex st
    (.natRes (impl.timeout_duration st₁.m_handle), unlockMutex st₁)
  | .setTimeoutDuration d, st =>
    let st₁ := lockMutex st
    (.unitRes, unlockMutex { st₁ with m_handle := impl.set_timeout_duration st₁.m_handle d })
  | .retryCount, st =>
    let st₁ := lockMutex st
    (.natRes (impl.retry_count st₁.m_handle), unlockMutex st₁)
  | .setRetryCount n, st =>
    let st₁ := lockMutex st
    (.unitRes, unlockMutex { st₁ with m_handle := impl.set_retry_count st₁.m_handle n })
  | .deviceInfo, st =>
    let st₁ := lockMutex st
    (.infoRes (impl.device_info st₁.m_handle), unlockMutex st₁)
  | .isOpened, st =>
    let st₁ := lockMutex st
    (.boolRes (impl.is_opened st₁.m_handle), unlockMutex st₁)
  | .openOp, st =>
    let st₁ := lockMutex st
    (.boolRes (impl.openDevice st₁.m_handle).1,
      unlockMutex { st₁ with m_handle := (impl.openDevice st₁.m_handle).2 })
  | .closeOp, st =>
    let st₁ := lockMutex st
    (.boolRes (impl.closeDevice st₁.m_handle).1,
      unlockMutex { st₁ with m_handle := (impl.closeDevice st₁.m_handle).2 })
  | .readOp a b, st =>
    let st₁ := lockMutex st
    (.bytesRes (impl.readMem st₁.m_handle a b).1.1 (impl.readMem st₁.m_handle a b).1.2,
      unlockMutex { st₁ with m_handle := (impl.readMem st₁.m_handle a b).2 })
  | .writeOp a d, st =>
    let st₁ := lockMutex st
    (.boolRes (impl.writeMem st₁.m_handle a d).1,
      unlockMutex { st₁ with m_handle := (impl.writeMem st₁.m_handle a d).2 })
  | .genapiOp, st =>
    let st₁ := lockMutex st
    (.strRes (impl.genapi st₁.m_handle).1,
      unlockMutex { st₁ with m_handle := (impl.genapi st₁.m_handle).2 })
  | .enableStreaming, st =>
    let st₁ := lockMutex st
    (.boolRes (impl.enable_streaming st₁.m_handle).1,
      unlockMutex { st₁ with m_handle := (impl.enable_streaming st₁.m_handle).2 })
  | .disableStreaming, st =>
    let st₁ := lockMutex st
    (.boolRes (impl.disable_streaming st₁.m_handle).1,
      unlockMutex { st₁ with m_handle := (impl.disable_streaming st₁.m_handle).2 })

/-- C9: in a single-threaded execution, invoking any `DeviceControl`
operation on a `SharedControlHandle` whose mutex is free returns exactly the
result of invoking the operation directly on the wrapped `ControlHandle`,
produces the same inner-handle state change, and leaves the mutex free. -/
theorem c9_shared_delegates {σ : Type} (impl : DCImpl σ) (op : DCOp) (h : σ) :
    runShared impl op { m_handle := h, m_mutex := false } =
      ((runControl impl op h).1,
        { m_handle := (runControl impl op h).2, m_mutex := false }) := by
  cases op <;> rfl

/-! ## READMEM chunking (Framing, modelled from the spec) -/

/-- Modelled from the spec: the READMEM chunking algorithm of the Framing
component — "a requested byte range longer than maximum_ack_length −
header_size is split into contiguous sub-reads, each with its own
request_id; results are concatenated in address order" (the framing
implementation itself is not among the provided source files).  A read of
`n` bytes at address `A` with chunk capacity `c = maximum_ack_length - 12`
yields the list of sub-reads `(request_id, address, length)`: each sub-read
takes `min c` of the remaining bytes at the next address with the next
request id. -/
def readmemChunks (rid A n c : Nat) : List (Nat × Nat × Nat) :=
  if _h : 0 < n ∧ 0 < c then
    (rid, A, min c n) :: readmemChunks (rid + 1) (A + min c n) (n - min c n) c
  else []
termination_by n
decreasing_by omega

/-- Modelled from the spec: the result of a single hypothetical `n`-byte
read at address `A` from a device memory `mem`. -/
def singleRead (mem : Nat → Nat) (A n : Nat) : List Nat :=
  (List.range n).map (fun i => mem (A + i))

/-- Concatenation, in address order, of the payloads of the given sub-reads
against device memory `mem`. -/
def chunkPayloads (mem : Nat → Nat) (chunks : List (Nat × Nat × Nat)) : List Nat :=
  (chunks.map (fun t => singleRead mem t.2.1 t.2.2)).flatten

lemma singleRead_add (mem : Nat → Nat) (A m k : Nat) :
    singleRead mem A (m + k) = singleRead mem A m ++ singleRead mem (A + m) k := by
  unfold singleRead
  rw [List.range_add, List.map_append, List.map_map]
  congr 1
  refine List.map_congr_left (fun i _ => ?_)
  simp [Function.comp, Nat.add_assoc]

lemma readmemChunks_length (c : Nat) (hc : 0 < c) :
    ∀ n rid A, (readmemChunks rid A n c).length = (n + c - 1) / c := by
  intro n
  induction n using Nat.strong_induction_on with
  | _ n ih =>
    intro rid A
    by_cases hn : 0 < n
    · unfold readmemChunks
      rw [dif_pos ⟨hn, hc⟩]
      simp only [List.length_cons]
      rw [ih (n - min c n) (by omega) (rid + 1) (A + min c n)]
      by_cases hle : n ≤ c
      · have hmin : min c n = n := by omega
        rw [hmin]
        have h0 : (n - n + c - 1) / c = 0 := Nat.div_eq_of_lt (by omega)
        have h1 : (n + c - 1) / c = 1 := Nat.div_eq_of_lt_le (by omega) (by omega)
        omega
      · have hmin : min c n = c := by omega
        rw [hmin]
        have he : n + c - 1 = n - c + c - 1 + c := by omega
        rw [he, Nat.add_div_right _ hc]
    · have hn0 : n = 0 := by omega
      subst hn0
      unfold readmemChunks
      rw [dif_neg (by omega)]
      simp only [List.length_nil]
      exact (Nat.div_eq_of_lt (by omega)).symm

lemma readmemChunks_ids (c : Nat) (hc : 0 < c) :
    ∀ n rid A, (readmemChunks rid A n c).map (fun t => t.1) =
      List.range' rid (readmemChunks rid A n c).length := by
  intro n
  induction n using Nat.strong_induction_on with
  | _ n ih =>
    intro rid A
    by_cases hn : 0 < n
    · unfold readmemChunks
      rw [dif_pos ⟨hn, hc⟩]
      simp only [List.map_cons, List.length_cons]
      rw [ih (n - min c n) (by omega) (rid + 1) (A + min c n)]
      rfl
    · unfold readmemChunks
      rw [dif_neg (by omega)]
      rfl

lemma readmemChunks_contig (c : Nat) (hc : 0 < c) :
    ∀ n rid A, ContigFrom A ((readmemChunks rid A n c).map (fun t => t.2)) := by
  intro n
  induction n using Nat.strong_induction_on with
  | _ n ih =>
    intro rid A
    by_cases hn : 0 < n
    · unfold readmemChunks
      rw [dif_pos ⟨hn, hc⟩]
      simp only [List.map_cons]
      rw [contigFrom_cons]
      exact ⟨rfl, ih (n - min c n) (by omega) (rid + 1) (A + min c n)⟩
    · unfold readmemChunks
      rw [dif_neg (by omega)]
      exact trivial

lemma readmemChunks_concat (c : Nat) (hc : 0 < c) (mem : Nat → Nat) :
    ∀ n rid A, chunkPayloads mem (readmemChunks rid A n c) = singleRead mem A n := by
  intro n
  induction n using Nat.strong_induction_on with
  | _ n ih =>
    intro rid A
    by_cases hn : 0 < n
    · unfold readmemChunks
      rw [dif_pos ⟨hn, hc⟩]
      unfold chunkPayloads
      simp only [List.map_cons, List.flatten_cons]
      have hrest := ih (n - min c n) (by omega) (rid + 1) (A + min c n)
      unfold chunkPayloads at hrest
      rw [hrest]
      have hsplit : n = min c n + (n - min c n) := by omega
      conv_rhs => rw [hsplit]
      rw [singleRead_add]
    · unfold readmemChunks
      rw [dif_neg (by omega)]
      have hn0 : n = 0 := by omega
      subst hn0
      rfl

/-- C6: a READMEM request of `n` bytes at address `A` with
`maximum_ack_length = L` and 12-byte ack header is split into
`⌈n / (L − 12)⌉` sub-reads (computed as `(n + (L-12) - 1) / (L-12)`), whose
request ids are pairwise distinct, whose address ranges are contiguous and
ascending from `A`, and whose concatenated payloads, in address order, equal
a single hypothetical `n`-byte read at `A`. -/
theorem c6_readmem_chunking (mem : Nat → Nat) (L A n rid : Nat) (hL : 12 < L) :
    (readmemChunks rid A n (L - 12)).length = (n + (L - 12) - 1) / (L - 12) ∧
    ((readmemChunks rid A n (L - 12)).map (fun t => t.1)).Nodup ∧
    ContigFrom A ((readmemChunks rid A n (L - 12)).map (fun t => t.2)) ∧
    chunkPayloads mem (readmemChunks rid A n (L - 12)) = singleRead mem A n := by
  have hc : 0 < L - 12 := by omega
  refine ⟨readmemChunks_length _ hc n rid A, ?_,
    readmemChunks_contig _ hc n rid A, readmemChunks_concat _ hc mem n rid A⟩
  rw [readmemChunks_ids _ hc n rid A]
  exact List.nodup_range' _ _

/-- Witness for C6 at the literal spec scenario: maximum_ack_length 64,
200 bytes requested at address 0x10000 — ⌈200 / 52⌉ = 4 sub-requests whose
concatenation equals the single 200-byte read. -/
theorem c6_readmem_chunking_witness :
    (readmemChunks 0 0x10000 200 (64 - 12)).length = 4 ∧
    chunkPayloads (fun a => a % 256) (readmemChunks 0 0x10000 200 (64 - 12)) =
      singleRead (fun a => a % 256) 0x10000 200 :=
  ⟨Eq.trans
      (c6_readmem_chunking (fun a => a % 256) 64 0x10000 200 0 (by decide)).1
      (by decide),
    (c6_readmem_chunking (fun a => a % 256) 64 0x10000 200 0 (by decide)).2.2.2⟩

end Cameleon
